import Mathlib

set_option maxHeartbeats 1000000

/-!
Shallow embedding of the lambda-to-discord repository (Go) and proofs about it.

The Go standard library's JSON machinery is modelled at the value level: an
abstract `parse : String → Option Json` stands for the syntactic phase of
`encoding/json.Unmarshal` (`none` = malformed input), and explicit functions
model the assignment phase into each Go target type, including the documented
rule that a JSON null leaves the target unchanged (its zero value).
-/

-- Models the whitespace set of strings.TrimSpace / bytes.TrimSpace
-- (unicode.IsSpace; the exotic Unicode space code points beyond Latin-1 are
-- not listed, which no input in this development exercises).
def goIsSpace (c : Char) : Bool :=
  c = ' ' || c = '\t' || c = '\n' || c = '\x0b' || c = '\x0c' || c = '\r' ||
  c = '\x85' || c = '\xa0'

-- Drops leading and trailing whitespace, as strings.TrimSpace does.
def trimChars (l : List Char) : List Char :=
  ((l.dropWhile goIsSpace).reverse.dropWhile goIsSpace).reverse

-- Models strings.TrimSpace.
def trimS (s : String) : String := String.mk (trimChars s.data)

-- Models strings.ToLower restricted to ASCII (the adapter selector only
-- compares against ASCII keywords).
def asciiLowerS (s : String) : String := String.mk (s.data.map Char.toLower)

-- Models strings.ToUpper restricted to ASCII (the alarm state comparisons
-- only involve ASCII keywords).
def asciiUpperS (s : String) : String := String.mk (s.data.map Char.toUpper)

-- The JSON value model: the image of a successful syntactic parse by
-- encoding/json. Numbers keep their literal spelling (Go prints float64
-- values back close to their shortest literal; only blankness and integral
-- checks on them matter in this development).
inductive Json where
  | null
  | bool (b : Bool)
  | num (lit : String)
  | str (s : String)
  | arr (elems : List Json)
  | obj (fields : List (String × Json))

abbrev EventMap := List (String × Json)

-- Key lookup in a decoded JSON object (Go map indexing; json.Unmarshal keeps
-- one value per key, so first-match lookup agrees with Go map semantics).
def lookupKey : EventMap → String → Option Json
  | [], _ => none
  | (k, v) :: rest, key => if key = k then some v else lookupKey rest key

-- Models json.Unmarshal into a map[string]any target: an object assigns its
-- fields, a JSON null sets the map to nil (no error), anything else errors.
def unmarshalMap : Json → Option EventMap
  | .obj fields => some fields
  | .null => some []
  | _ => none

-- Models json.Unmarshal into a string target: a JSON string assigns its
-- content, a JSON null leaves the target at its zero value "" (no error),
-- anything else errors.
def unmarshalString : Json → Option String
  | .str s => some s
  | .null => some ""
  | _ => none

-- Models fmt.Sprint on a value decoded from JSON (%v formatting). Composite
-- values render in Go's "[a b]" / "map[k:v]" shape; Go additionally sorts map
-- keys, which no property here depends on (only blankness is ever used).
mutual

def sprintVal : Json → String
  | .null => "<nil>"
  | .bool true => "true"
  | .bool false => "false"
  | .num lit => lit
  | .str s => s
  | .arr elems => "[" ++ sprintElems elems ++ "]"
  | .obj fields => "map[" ++ sprintFields fields ++ "]"

def sprintElems : List Json → String
  | [] => ""
  | [x] => sprintVal x
  | x :: y :: rest => sprintVal x ++ " " ++ sprintElems (y :: rest)

def sprintFields : List (String × Json) → String
  | [] => ""
  | [(k, v)] => k ++ ":" ++ sprintVal v
  | (k, v) :: q :: rest => k ++ ":" ++ sprintVal v ++ " " ++ sprintFields (q :: rest)

end

-- Go error values as they flow through the program: errors.New / fmt.Errorf
-- give plain messages, fmt.Errorf with %w wraps a cause behind a prefix,
-- errors.Join pairs two errors, and discord.WebhookError is the typed
-- delivery error (its Error() renders the fixed prefix before the cause).
inductive GoError where
  | msg (s : String)
  | wrapped (pre : String) (cause : GoError)
  | joined (first second : GoError)
  | webhook (cause : GoError)
deriving DecidableEq

-- Models the Error() rendering of the error values above.
def GoError.render : GoError → String
  | .msg s => s
  | .wrapped pre cause => pre ++ ": " ++ cause.render
  | .joined first second => first.render ++ "\n" ++ second.render
  | .webhook cause => "failed to send message to Discord: " ++ cause.render

-- adapter.extractString: nil → "", otherwise TrimSpace(fmt.Sprint(value)).
-- A JSON null stored in a decoded map is a nil interface value in Go.
def extractString : Json → String
  | .null => ""
  | v => trimS (sprintVal v)

-- The value of event[key] pushed through extractString; a missing key indexes
-- to the zero value nil, which extractString maps to "".
def indexString (m : EventMap) (key : String) : String :=
  match lookupKey m key with
  | some v => extractString v
  | none => ""

-- domain/notification.go
structure EmbedFooter where
  Text : String
deriving DecidableEq

structure EmbedField where
  Name : String
  Value : String
  Inline : Bool
deriving DecidableEq

structure Embed where
  Title : String
  Description : String
  Color : Nat
  Fields : List EmbedField
  Footer : Option EmbedFooter
  Timestamp : String
deriving DecidableEq

structure AllowedMentions where
  Parse : List String
  Users : List String
  Roles : List String
  RepliedUser : Bool
deriving DecidableEq

-- Go slices distinguish nil from empty; every observation made of these
-- fields (length checks, omitempty serialization) coincides on the two, so
-- both are modelled as [].
structure NotificationPayload where
  WebhookURL : String
  Content : String
  Embeds : List Embed
  AllowedMentions : Option AllowedMentions
  Username : String
  AvatarURL : String
deriving DecidableEq

-- The Go zero value of NotificationPayload, returned alongside every error.
def emptyPayload : NotificationPayload :=
  { WebhookURL := "", Content := "", Embeds := [], AllowedMentions := none,
    Username := "", AvatarURL := "" }

def AllowedMentions.IsZero (a : AllowedMentions) : Bool :=
  a.Parse.isEmpty && a.Users.isEmpty && a.Roles.isEmpty && !a.RepliedUser

-- domain.NoMentions: a present-but-empty policy (explicit suppression).
def NoMentions : AllowedMentions :=
  { Parse := [], Users := [], Roles := [], RepliedUser := false }

-- NotificationPayload.Validate (domain/notification.go).
def NotificationPayload.Validate (p : NotificationPayload) : Option GoError :=
  if trimS p.WebhookURL = "" then
    some (.msg "discord webhook URL must be provided")
  else if trimS p.Content = "" ∧ p.Embeds.length = 0 then
    some (.msg "notification payload must include content or embeds")
  else
    none

-- adapter/direct.go: normaliseEvent. The outer and inner json.Unmarshal
-- calls are split into the abstract syntactic parse plus the typed
-- assignment functions unmarshalMap / unmarshalString.
def normaliseEvent (parse : String → Option Json) (raw : String) :
    Except GoError EventMap :=
  if raw = "" then .ok [] else
  if trimS raw = "" then .ok [] else
  match parse (trimS raw) with
  | none => .error (.msg "event must be an object or JSON string")
  | some v =>
    match unmarshalMap v with
    | some m => .ok m
    | none =>
      match unmarshalString v with
      | none => .error (.msg "event must be an object or JSON string")
      | some s =>
        if trimS s = "" then .ok [] else
        match parse (trimS s) with
        | none => .error (.wrapped "event string must contain valid JSON object"
            (.msg "invalid JSON"))
        | some v2 =>
          match unmarshalMap v2 with
          | some m => .ok m
          | none => .error (.wrapped "event string must contain valid JSON object"
              (.msg "cannot unmarshal into map"))

-- adapter.extractWebhookURL: first of the two keys whose coerced value is
-- non-blank; a key that is absent and a key whose coerced value is blank are
-- both skipped, which indexString collapses into one case.
def extractWebhookURL (m : EventMap) : Except GoError String :=
  if indexString m "webhookURL" ≠ "" then .ok (indexString m "webhookURL")
  else if indexString m "webhook_url" ≠ "" then .ok (indexString m "webhook_url")
  else .error (.msg "event must contain a \u0027webhookURL\u0027 or \u0027webhook_url\u0027")

-- adapter.extractFirstNonEmpty.
def extractFirstNonEmpty (m : EventMap) : List String → String
  | [] => ""
  | key :: rest =>
    match lookupKey m key with
    | some v => if extractString v ≠ "" then extractString v else extractFirstNonEmpty m rest
    | none => extractFirstNonEmpty m rest

-- The fallback block inside DirectAdapter.Transform (lines 26-33): on a
-- missing target, strings.TrimSpace(os.Getenv("WEBHOOK_URL")) is consulted.
def resolveWebhookURL (fallbackEnv : String) (m : EventMap) : Except GoError String :=
  match extractWebhookURL m with
  | .ok u => .ok u
  | .error e => if trimS fallbackEnv = "" then .error e else .ok (trimS fallbackEnv)

-- Typed decode of one JSON value into a Go struct field of type string:
-- absent and null leave the zero value, a string assigns, the rest error.
def getStrField (fields : EventMap) (key : String) : Except String String :=
  match lookupKey fields key with
  | none => .ok ""
  | some .null => .ok ""
  | some (.str s) => .ok s
  | some _ => .error ("cannot unmarshal into string field " ++ key)

-- Typed decode into a bool struct field.
def getBoolField (fields : EventMap) (key : String) : Except String Bool :=
  match lookupKey fields key with
  | none => .ok false
  | some .null => .ok false
  | some (.bool b) => .ok b
  | some _ => .error ("cannot unmarshal into bool field " ++ key)

-- Typed decode into an int struct field; a fractional or exotic literal is
-- rejected (String.toInt? approximates Go's integral-float acceptance, which
-- nothing here exercises).
def getIntField (fields : EventMap) (key : String) : Except String Int :=
  match lookupKey fields key with
  | none => .ok 0
  | some .null => .ok 0
  | some (.num lit) =>
    match lit.toInt? with
    | some n => .ok n
    | none => .error ("cannot unmarshal number into int field " ++ key)
  | some _ => .error ("cannot unmarshal into int field " ++ key)

-- Typed decode into a []string struct field.
def getStrListField (fields : EventMap) (key : String) : Except String (List String) :=
  match lookupKey fields key with
  | none => .ok []
  | some .null => .ok []
  | some (.arr elems) =>
    elems.mapM fun e =>
      match e with
      | .str s => Except.ok s
      | .null => Except.ok ""
      | _ => Except.error ("cannot unmarshal into string element of " ++ key)
  | some _ => .error ("cannot unmarshal into list field " ++ key)

-- Typed decode of one Embed (re-encode path of parseEmbeds: json.Marshal of
-- the generic value followed by json.Unmarshal into the typed struct).
def decodeEmbedJson : Json → Except String Embed
  | .null =>
    .ok { Title := "", Description := "", Color := 0, Fields := [],
          Footer := none, Timestamp := "" }
  | .obj fields => do
    let title ← getStrField fields "title"
    let description ← getStrField fields "description"
    let color ← getIntField fields "color"
    let fieldList ←
      match lookupKey fields "fields" with
      | none => Except.ok []
      | some .null => Except.ok []
      | some (.arr elems) =>
        elems.mapM fun e =>
          match e with
          | .null => Except.ok { Name := "", Value := "", Inline := false }
          | .obj g => do
            let n ← getStrField g "name"
            let v ← getStrField g "value"
            let inl ← getBoolField g "inline"
            Except.ok ({ Name := n, Value := v, Inline := inl } : EmbedField)
          | _ => Except.error "cannot unmarshal embed field"
      | some _ => Except.error "cannot unmarshal embed fields"
    let footer ←
      match lookupKey fields "footer" with
      | none => Except.ok none
      | some .null => Except.ok none
      | some (.obj g) => do
        let t ← getStrField g "text"
        Except.ok (some ({ Text := t } : EmbedFooter))
      | some _ => Except.error "cannot unmarshal embed footer"
    let timestamp ← getStrField fields "timestamp"
    .ok { Title := title, Description := description, Color := color.toNat,
          Fields := fieldList, Footer := footer, Timestamp := timestamp }
  | _ => .error "cannot unmarshal into Embed"

-- adapter.parseEmbeds on a value taken out of the normalized map (such a
-- value is a generic decoded one, so the json.RawMessage / []byte cases of
-- the Go switch cannot fire; the marshal of a decoded value cannot fail).
def parseEmbeds : Json → Except GoError (List Embed)
  | .null => .ok []
  | .arr elems =>
    match elems.mapM decodeEmbedJson with
    | .error e => .error (.wrapped "embeds must be an array" (.msg e))
    | .ok embeds => .ok embeds
  | _ => .error (.wrapped "embeds must be an array" (.msg "value is not an array"))

-- Typed decode of AllowedMentions via the same re-encode path.
def decodeAllowedMentionsJson : Json → Except String AllowedMentions
  | .null => .ok NoMentions
  | .obj fields => do
    let parseScopes ← getStrListField fields "parse"
    let users ← getStrListField fields "users"
    let roles ← getStrListField fields "roles"
    let replied ← getBoolField fields "replied_user"
    .ok { Parse := parseScopes, Users := users, Roles := roles, RepliedUser := replied }
  | _ => .error "cannot unmarshal into AllowedMentions"

-- adapter.parseAllowedMentions: a decoded all-empty policy is discarded.
def parseAllowedMentions : Json → Except GoError (Option AllowedMentions)
  | .null => .ok none
  | v =>
    match decodeAllowedMentionsJson v with
    | .error e => .error (.wrapped "allowed_mentions must follow Discord schema" (.msg e))
    | .ok a => if a.IsZero then .ok none else .ok (some a)

-- The embeds block of DirectAdapter.Transform: an absent key contributes no
-- embeds, a present key must parse.
def transformEmbeds (m : EventMap) : Except GoError (List Embed) :=
  match lookupKey m "embeds" with
  | none => .ok []
  | some v => parseEmbeds v

-- The allowed_mentions block of DirectAdapter.Transform.
def transformMentions (m : EventMap) : Except GoError (Option AllowedMentions) :=
  match lookupKey m "allowed_mentions" with
  | none => .ok none
  | some v => parseAllowedMentions v

-- DirectAdapter.Transform. The Go function returns (payload, eventMap, err);
-- the triple is kept as written, with the zero payload on every error path
-- and the map set only once normalisation has succeeded.
def directTransform (parse : String → Option Json) (fallbackEnv : String)
    (event : String) : NotificationPayload × Option EventMap × Option GoError :=
  match normaliseEvent parse event with
  | .error err => (emptyPayload, none, some err)
  | .ok eventMap =>
    match resolveWebhookURL fallbackEnv eventMap with
    | .error err => (emptyPayload, some eventMap, some err)
    | .ok webhookURL =>
      if extractFirstNonEmpty eventMap ["content", "message"] = "" then
        (emptyPayload, some eventMap,
          some (.msg "event must contain a \u0027content\u0027 or \u0027message\u0027 field"))
      else
        match transformEmbeds eventMap with
        | .error err => (emptyPayload, some eventMap, some err)
        | .ok embeds =>
          match transformMentions eventMap with
          | .error err => (emptyPayload, some eventMap, some err)
          | .ok mentions =>
            ({ WebhookURL := webhookURL,
               Content := extractFirstNonEmpty eventMap ["content", "message"],
               Embeds := embeds,
               AllowedMentions := mentions,
               Username := indexString eventMap "username",
               AvatarURL := indexString eventMap "avatar_url" },
             some eventMap, none)

-- adapter/cloudwatch_sns.go
structure CloudWatchDimension where
  Name : String
  Value : String
deriving DecidableEq

structure CloudWatchTrigger where
  MetricName : String
  Namespace : String
  StatisticType : String
  Statistic : String
  Period : Int
  EvaluationPeriods : Int
  ComparisonOperator : String
  Threshold : String
  TreatMissingData : String
  Dimensions : List CloudWatchDimension
deriving DecidableEq

structure CloudWatchAlarm where
  AlarmName : String
  AlarmDescription : String
  AWSAccountID : String
  NewStateValue : String
  NewStateReason : String
  StateChangeTime : String
  Region : String
  AlarmArn : String
  OldStateValue : String
  Trigger : CloudWatchTrigger
deriving DecidableEq

def zeroTrigger : CloudWatchTrigger :=
  { MetricName := "", Namespace := "", StatisticType := "", Statistic := "",
    Period := 0, EvaluationPeriods := 0, ComparisonOperator := "",
    Threshold := "", TreatMissingData := "", Dimensions := [] }

def zeroAlarm : CloudWatchAlarm :=
  { AlarmName := "", AlarmDescription := "", AWSAccountID := "",
    NewStateValue := "", NewStateReason := "", StateChangeTime := "",
    Region := "", AlarmArn := "", OldStateValue := "", Trigger := zeroTrigger }

-- Typed decode into a json.Number field: absent and null leave the zero
-- literal "", a JSON number keeps its literal spelling, the rest error.
def getNumberField (fields : EventMap) (key : String) : Except String String :=
  match lookupKey fields key with
  | none => .ok ""
  | some .null => .ok ""
  | some (.num lit) => .ok lit
  | some _ => .error ("cannot unmarshal into json.Number field " ++ key)

def decodeDimensionJson : Json → Except String CloudWatchDimension
  | .null => .ok { Name := "", Value := "" }
  | .obj g => do
    let n ← getStrField g "name"
    let v ← getStrField g "value"
    .ok { Name := n, Value := v }
  | _ => .error "cannot unmarshal into Dimension"

def decodeTriggerJson : Json → Except String CloudWatchTrigger
  | .null => .ok zeroTrigger
  | .obj fields => do
    let metricName ← getStrField fields "MetricName"
    let namespace2 ← getStrField fields "Namespace"
    let statisticType ← getStrField fields "StatisticType"
    let statistic ← getStrField fields "Statistic"
    let period ← getIntField fields "Period"
    let evaluationPeriods ← getIntField fields "EvaluationPeriods"
    let comparisonOperator ← getStrField fields "ComparisonOperator"
    let threshold ← getNumberField fields "Threshold"
    let treatMissingData ← getStrField fields "TreatMissingData"
    let dims ←
      match lookupKey fields "Dimensions" with
      | none => Except.ok []
      | some .null => Except.ok []
      | some (.arr elems) => elems.mapM decodeDimensionJson
      | some _ => Except.error "cannot unmarshal into Dimensions"
    .ok { MetricName := metricName, Namespace := namespace2,
          StatisticType := statisticType, Statistic := statistic,
          Period := period, EvaluationPeriods := evaluationPeriods,
          ComparisonOperator := comparisonOperator, Threshold := threshold,
          TreatMissingData := treatMissingData, Dimensions := dims }
  | _ => .error "cannot unmarshal into Trigger"

-- Typed decode of the fixed-schema alarm record (Go matches struct fields
-- case-insensitively preferring exact matches; only exact-case keys occur in
-- this development, so exact lookup is used).
def decodeAlarmJson : Json → Except String CloudWatchAlarm
  | .null => .ok zeroAlarm
  | .obj fields => do
    let alarmName ← getStrField fields "AlarmName"
    let alarmDescription ← getStrField fields "AlarmDescription"
    let accountId ← getStrField fields "AWSAccountId"
    let newStateValue ← getStrField fields "NewStateValue"
    let newStateReason ← getStrField fields "NewStateReason"
    let stateChangeTime ← getStrField fields "StateChangeTime"
    let region ← getStrField fields "Region"
    let alarmArn ← getStrField fields "AlarmArn"
    let oldStateValue ← getStrField fields "OldStateValue"
    let trigger ←
      match lookupKey fields "Trigger" with
      | none => Except.ok zeroTrigger
      | some v => decodeTriggerJson v
    .ok { AlarmName := alarmName, AlarmDescription := alarmDescription,
          AWSAccountID := accountId, NewStateValue := newStateValue,
          NewStateReason := newStateReason, StateChangeTime := stateChangeTime,
          Region := region, AlarmArn := alarmArn, OldStateValue := oldStateValue,
          Trigger := trigger }
  | _ => .error "cannot unmarshal into CloudWatchAlarm"

-- Models json.Unmarshal of the fan-out envelope (snsEnvelope): yields the
-- list of Records[i].Sns.Message values, or none on a type mismatch.
def decodeEnvelopeRecord : Json → Option String
  | .null => some ""
  | .obj fields =>
    match lookupKey fields "Sns" with
    | none => some ""
    | some .null => some ""
    | some (.obj g) =>
      (match lookupKey g "Message" with
       | none => some ""
       | some .null => some ""
       | some (.str s) => some s
       | some _ => none)
    | some _ => none
  | _ => none

def decodeEnvelope : Json → Option (List String)
  | .null => some []
  | .obj fields =>
    match lookupKey fields "Records" with
    | none => some []
    | some .null => some []
    | some (.arr elems) => elems.mapM decodeEnvelopeRecord
    | some _ => none
  | _ => none

-- adapter.extractAlarmMessage.
def extractAlarmMessage (parse : String → Option Json) (raw : String) :
    Except GoError String :=
  if trimS raw = "" then .error (.msg "cloudwatch alarm message is empty") else
  match parse (trimS raw) with
  | none => .ok (trimS raw)
  | some v =>
    match unmarshalString v with
    | some s => .ok (trimS s)
    | none =>
      match decodeEnvelope v with
      | none => .ok (trimS raw)
      | some msgs =>
        match msgs.head? with
        | some firstMsg => if firstMsg = "" then .ok (trimS raw) else .ok firstMsg
        | none => .ok (trimS raw)

-- adapter.decodeAlarm.
def decodeAlarm (parse : String → Option Json) (message : String) :
    Except GoError CloudWatchAlarm :=
  if trimS message = "" then .error (.msg "cloudwatch alarm payload is empty") else
  match parse (trimS message) with
  | none => .error (.wrapped "failed to decode cloudwatch alarm" (.msg "invalid JSON"))
  | some v =>
    match decodeAlarmJson v with
    | .error e => .error (.wrapped "failed to decode cloudwatch alarm" (.msg e))
    | .ok alarm => .ok alarm

-- Models fmt.Sprintf %q without the escaping of special characters, which no
-- alarm name in this development contains.
def goQuote (s : String) : String := "\"" ++ s ++ "\""

-- adapter.buildAlarmSummary.
def buildAlarmSummary (alarm : CloudWatchAlarm) : String :=
  let state := asciiLowerS (trimS alarm.NewStateValue)
  let state := if state = "" then "unknown" else state
  ":rotating_light: CloudWatch alarm " ++ goQuote alarm.AlarmName ++ " is " ++ state

-- adapter.buildAlarmDescription.
def buildAlarmDescription (alarm : CloudWatchAlarm) : String :=
  if trimS alarm.NewStateReason ≠ "" then trimS alarm.NewStateReason
  else "CloudWatch reported a state change."

-- adapter.buildMetricSummary.
def buildMetricSummary (trigger : CloudWatchTrigger) : String :=
  let parts : List String := []
  let parts :=
    if trigger.Namespace ≠ "" ∧ trigger.MetricName ≠ "" then
      parts ++ [trigger.Namespace ++ "/" ++ trigger.MetricName]
    else if trigger.MetricName ≠ "" then parts ++ [trigger.MetricName]
    else parts
  let parts :=
    if trigger.StatisticType ≠ "" then parts ++ [trigger.StatisticType]
    else if trigger.Statistic ≠ "" then parts ++ [trigger.Statistic]
    else parts
  let threshold := trimS trigger.Threshold
  let parts :=
    if trigger.ComparisonOperator ≠ "" ∧ threshold ≠ "" then
      parts ++ [trigger.ComparisonOperator ++ " " ++ threshold]
    else parts
  let parts :=
    if trigger.EvaluationPeriods > 0 then
      parts ++ ["for " ++ toString trigger.EvaluationPeriods ++ " periods"]
    else parts
  let parts :=
    if trigger.Period > 0 then parts ++ ["period: " ++ toString trigger.Period ++ "s"]
    else parts
  let parts :=
    if trigger.TreatMissingData ≠ "" then
      parts ++ ["missing data: " ++ trigger.TreatMissingData]
    else parts
  String.intercalate " · " parts

-- adapter.buildDimensionsSummary.
def buildDimensionsSummary (dims : List CloudWatchDimension) : String :=
  match dims with
  | [] => ""
  | _ =>
    let parts := dims.foldl (fun acc d =>
      if trimS d.Name = "" ∨ trimS d.Value = "" then acc
      else acc ++ [trimS d.Name ++ "=" ++ trimS d.Value]) []
    String.intercalate ", " parts

-- The appendField closure inside adapter.buildAlarmFields.
def appendAlarmField (acc : List EmbedField) (name value : String) (inl : Bool) :
    List EmbedField :=
  if trimS value = "" then acc
  else acc ++ [{ Name := name, Value := trimS value, Inline := inl }]

-- adapter.buildAlarmFields.
def buildAlarmFields (alarm : CloudWatchAlarm) : List EmbedField :=
  let fields := appendAlarmField [] "Account" alarm.AWSAccountID true
  let fields := appendAlarmField fields "Region" alarm.Region true
  let fields := appendAlarmField fields "Old State" alarm.OldStateValue true
  let fields := appendAlarmField fields "New State" alarm.NewStateValue true
  let fields := appendAlarmField fields "Alarm ARN" alarm.AlarmArn false
  let fields :=
    if buildMetricSummary alarm.Trigger ≠ "" then
      appendAlarmField fields "Trigger" (buildMetricSummary alarm.Trigger) false
    else fields
  let fields :=
    if buildDimensionsSummary alarm.Trigger.Dimensions ≠ "" then
      appendAlarmField fields "Dimensions" (buildDimensionsSummary alarm.Trigger.Dimensions) false
    else fields
  fields

-- NewCloudWatchSNSAdapter trims the configured target at construction time.
def newCloudWatchSNSAdapter (webhookURL : String) : String := trimS webhookURL

-- The single embed synthesized by CloudWatchSNSAdapter.Transform (lines
-- 42-57): title, description, state-dependent color, fields, optional
-- footer, verbatim timestamp.
def alarmEmbed (alarm : CloudWatchAlarm) : Embed :=
  { Title := alarm.AlarmName,
    Description := buildAlarmDescription alarm,
    Color := if asciiUpperS (trimS alarm.NewStateValue) = "ALARM" then 0xE74C3C
             else if asciiUpperS (trimS alarm.NewStateValue) = "OK" then 0x2ECC71
             else 0,
    Fields := buildAlarmFields alarm,
    Footer := if trimS alarm.AlarmDescription ≠ "" then
                some { Text := trimS alarm.AlarmDescription }
              else none,
    Timestamp := alarm.StateChangeTime }

-- The diagnostic map returned by CloudWatchSNSAdapter.Transform: the decoded
-- message when it is an object, else a single-key raw fallback.
def alarmEventMap (parse : String → Option Json) (message : String) : EventMap :=
  match parse message with
  | some v =>
    (match unmarshalMap v with
     | some m => m
     | none => [("raw", Json.str message)])
  | none => [("raw", Json.str message)]

-- CloudWatchSNSAdapter.Transform; adapterURL is the adapter's stored
-- webhookURL field.
def cloudwatchTransform (parse : String → Option Json) (adapterURL : String)
    (event : String) : NotificationPayload × Option EventMap × Option GoError :=
  if trimS adapterURL = "" then
    (emptyPayload, none, some (.msg "cloudwatch adapter requires webhook url"))
  else
    match extractAlarmMessage parse event with
    | .error err => (emptyPayload, none, some err)
    | .ok message =>
      match decodeAlarm parse message with
      | .error err => (emptyPayload, none, some err)
      | .ok alarm =>
        ({ WebhookURL := adapterURL,
           Content := buildAlarmSummary alarm,
           Embeds := [alarmEmbed alarm],
           AllowedMentions := some NoMentions,
           Username := "",
           AvatarURL := "" },
         some (alarmEventMap parse message), none)

-- discord/client.go
-- JSON encoding of one EmbedField (struct tags with omitempty on inline).
def encodeEmbedField (f : EmbedField) : Json :=
  .obj ([("name", .str f.Name), ("value", .str f.Value)] ++
    (if f.Inline then [("inline", .bool true)] else []))

-- JSON encoding of one Embed (every tag carries omitempty).
def encodeEmbed (e : Embed) : Json :=
  .obj ((if e.Title = "" then [] else [("title", .str e.Title)]) ++
    (if e.Description = "" then [] else [("description", .str e.Description)]) ++
    (if e.Color = 0 then [] else [("color", .num (toString e.Color))]) ++
    (if e.Fields.length = 0 then []
     else [("fields", .arr (e.Fields.map encodeEmbedField))]) ++
    (match e.Footer with
     | none => []
     | some f => [("footer", .obj [("text", .str f.Text)])]) ++
    (if e.Timestamp = "" then [] else [("timestamp", .str e.Timestamp)]))

-- JSON encoding of AllowedMentions (every tag carries omitempty).
def encodeAllowedMentions (a : AllowedMentions) : Json :=
  .obj ((if a.Parse.length = 0 then [] else [("parse", .arr (a.Parse.map .str))]) ++
    (if a.Users.length = 0 then [] else [("users", .arr (a.Users.map .str))]) ++
    (if a.Roles.length = 0 then [] else [("roles", .arr (a.Roles.map .str))]) ++
    (if a.RepliedUser then [("replied_user", .bool true)] else []))

-- discord.buildRequestBody: the body map handed to json.Marshal. Go's map
-- marshalling sorts keys; insertion order is kept here, and only key
-- membership is ever observed. Marshalling a map of encodable values cannot
-- fail, so the function is total.
def buildRequestBody (p : NotificationPayload) : EventMap :=
  (if trimS p.Content = "" then [] else [("content", Json.str p.Content)]) ++
  (if p.Embeds.length = 0 then [] else [("embeds", Json.arr (p.Embeds.map encodeEmbed))]) ++
  (match p.AllowedMentions with
   | none => []
   | some a => [("allowed_mentions", encodeAllowedMentions a)]) ++
  (if trimS p.Username = "" then [] else [("username", Json.str p.Username)]) ++
  (if trimS p.AvatarURL = "" then [] else [("avatar_url", Json.str p.AvatarURL)])

-- One HTTP POST as the Dispatcher issues it: target URL and JSON body (the
-- method and Content-Type header are the same for every request).
structure HttpRequest where
  url : String
  body : EventMap

-- The observable outcome of client.Do plus the subsequent body read/close:
-- readBody models io.ReadAll on resp.Body and closeErr models
-- resp.Body.Close().
structure HttpResponse where
  statusCode : Nat
  readBody : Except GoError String
  closeErr : Option GoError

-- The HTTPClient dependency: a transport error (.error) or a response.
-- Effects are modelled by also returning the list of requests issued.
abbrev HttpClient := HttpRequest → Except GoError HttpResponse

-- The request Send constructs (http.NewRequestWithContext on a syntactically
-- sound method/URL cannot fail here).
def mkRequest (p : NotificationPayload) : HttpRequest :=
  { url := p.WebhookURL, body := buildRequestBody p }

-- discord.Send. The second component is the trace of HTTP calls issued.
def Send (client : HttpClient) (payload : NotificationPayload) :
    Except GoError (Nat × String) × List HttpRequest :=
  match payload.Validate with
  | some err => (.error err, [])
  | none =>
    match client (mkRequest payload) with
    | .error cause => (.error (.webhook cause), [mkRequest payload])
    | .ok resp =>
      match resp.readBody with
      | .error readErr =>
        (match resp.closeErr with
         | some closeErr =>
           (.error (.wrapped "failed to read response"
              (.joined readErr (.wrapped "failed to close response body" closeErr))),
            [mkRequest payload])
         | none =>
           (.error (.wrapped "failed to read response" readErr), [mkRequest payload]))
      | .ok respBody =>
        match resp.closeErr with
        | some closeErr =>
          (.error (.wrapped "failed to close response body" closeErr), [mkRequest payload])
        | none => (.ok (resp.statusCode, respBody), [mkRequest payload])

-- handler.go
-- The three environment variables read by the handler.
structure Env where
  adapterType : String
  webhookURL : String
  errorWebhookURL : String

structure Response where
  statusCode : Nat
  body : String
deriving DecidableEq

-- handler.buildNotificationPayload, with the ToLower/TrimSpace of
-- ADAPTER_TYPE done by the caller in Go inlined here.
def buildNotificationPayload (parse : String → Option Json) (env : Env)
    (event : String) : NotificationPayload × Option EventMap × Option GoError :=
  let adapterType := asciiLowerS (trimS env.adapterType)
  if adapterType = "" ∨ adapterType = "direct" then
    directTransform parse env.webhookURL event
  else if adapterType = "cloudwatch" then
    cloudwatchTransform parse (newCloudWatchSNSAdapter env.webhookURL) event
  else
    (emptyPayload, none, some (.msg ("unsupported adapter type: " ++ adapterType)))

-- Compact JSON rendering used for the failure diagnostic (Go pretty-prints
-- with MarshalIndent / json.Indent; only non-emptiness of the rendering is
-- ever observed, so indentation is not reproduced).
mutual

def renderJson : Json → String
  | .null => "null"
  | .bool true => "true"
  | .bool false => "false"
  | .num lit => lit
  | .str s => "\"" ++ s ++ "\""
  | .arr elems => "[" ++ renderElems elems ++ "]"
  | .obj fields => "\x7b" ++ renderFields fields ++ "\x7d"

def renderElems : List Json → String
  | [] => ""
  | [x] => renderJson x
  | x :: y :: rest => renderJson x ++ "," ++ renderElems (y :: rest)

def renderFields : List (String × Json) → String
  | [] => ""
  | [(k, v)] => "\"" ++ k ++ "\":" ++ renderJson v
  | (k, v) :: q :: rest =>
    "\"" ++ k ++ "\":" ++ renderJson v ++ "," ++ renderFields (q :: rest)

end

def wrapAsJSONCodeBlock (s : String) : String := "```json\n" ++ s ++ "\n```"

-- handler.formatRequestForNotification: prefer the normalized map, fall back
-- to the raw bytes (json.Valid is modelled by the abstract parse succeeding).
def formatRequestForNotification (parse : String → Option Json)
    (rawEvent : String) (eventMap : Option EventMap) : String :=
  match eventMap with
  | some m => wrapAsJSONCodeBlock (renderJson (.obj m))
  | none =>
    if trimS rawEvent = "" then ""
    else
      match parse (trimS rawEvent) with
      | some _ => wrapAsJSONCodeBlock (trimS rawEvent)
      | none => "```\n" ++ trimS rawEvent ++ "\n```"

-- handler.buildErrorNotificationPayload.
def buildErrorNotificationPayload (parse : String → Option Json)
    (webhookURL rawEvent : String) (eventMap : Option EventMap)
    (procErr : GoError) : NotificationPayload :=
  let base : NotificationPayload :=
    { WebhookURL := webhookURL,
      Content := "Failed to process request: " ++ procErr.render,
      Embeds := [],
      AllowedMentions := some NoMentions,
      Username := "", AvatarURL := "" }
  let description := formatRequestForNotification parse rawEvent eventMap
  if description = "" then base
  else
    { base with
      Embeds := [{ Title := "Request", Description := description,
                   Color := 0, Fields := [], Footer := none, Timestamp := "" }] }

-- handler.notifyProcessingError. The Go function has no return value and
-- discards the result and error of discord.Send with a blank assignment; the
-- only observable effect is the list of HTTP calls the inner Send issued.
def notifyProcessingError (parse : String → Option Json) (env : Env)
    (client : HttpClient) (rawEvent : String) (eventMap : Option EventMap)
    (procErr : Option GoError) : List HttpRequest :=
  match procErr with
  | none => []
  | some err =>
    let webhookURL := trimS env.errorWebhookURL
    if webhookURL = "" then []
    else
      (Send client (buildErrorNotificationPayload parse webhookURL rawEvent
        eventMap err)).2

-- handler.HandleRequest: result plus the full trace of HTTP calls (primary
-- dispatch first, then any best-effort diagnostic).
def HandleRequest (parse : String → Option Json) (env : Env)
    (client : HttpClient) (event : String) :
    Except GoError Response × List HttpRequest :=
  match buildNotificationPayload parse env event with
  | (_, eventMap, some err) =>
    (.error err, notifyProcessingError parse env client event eventMap (some err))
  | (payload, eventMap, none) =>
    match Send client payload with
    | (.error err, calls) =>
      (.error err,
       calls ++ notifyProcessingError parse env client event eventMap (some err))
    | (.ok (status, body), calls) =>
      (.ok { statusCode := status, body := body }, calls)

-- Concrete inputs used by counterexamples and witnesses, together with a
-- concrete parse function that behaves as encoding/json does on exactly the
-- JSON texts below.
def c2rawText : String :=
  "\x7b\"webhookURL\":\"https://x/h\",\"content\":\" \",\"message\":\"hi\"\x7d"

def c2map : EventMap :=
  [("webhookURL", .str "https://x/h"), ("content", .str " "), ("message", .str "hi")]

def c2missingText : String := "\x7b\"embeds\":[]\x7d"

def c2embText : String := "\x7b\"webhookURL\":\"https://h\",\"embeds\":[]\x7d"

def c2embMap : EventMap := [("webhookURL", .str "https://h"), ("embeds", .arr [])]

def c3fbText : String := "\x7b\"message\":\"m\"\x7d"

def c3fbMap : EventMap := [("message", .str "m")]

def c3rawText : String := "\x7b\"webhook_url\":\"https://y\",\"message\":\"m\"\x7d"

def c3map : EventMap := [("webhook_url", .str "https://y"), ("message", .str "m")]

def c4rawText : String := "\x7b\"AlarmName\":\"cpu\",\"NewStateValue\":\"ALARM\"\x7d"

def c4map : EventMap := [("AlarmName", .str "cpu"), ("NewStateValue", .str "ALARM")]

def c5envText : String :=
  "\x7b\"Records\":[\x7b\"Sns\":\x7b\"Message\":\"msg1\"\x7d\x7d]\x7d"

def c5envJson : Json :=
  .obj [("Records", .arr [.obj [("Sns", .obj [("Message", .str "msg1")])]])]

def c6rawText : String :=
  "\x7b\"webhookURL\":\"https://h\",\"content\":\"hi\",\"allowed_mentions\":\x7b\"parse\":[]\x7d\x7d"

def c6map : EventMap :=
  [("webhookURL", .str "https://h"), ("content", .str "hi"),
   ("allowed_mentions", .obj [("parse", .arr [])])]

def demoParse : String → Option Json := fun s =>
  if s = "null" then some .null
  else if s = "\x7b\x7d" then some (.obj [])
  else if s = "\"null\"" then some (.str "null")
  else if s = "\x7b\"a\":1\x7d" then some (.obj [("a", .num "1")])
  else if s = "\"\x7b\x7d\"" then some (.str "\x7b\x7d")
  else if s = "[1]" then some (.arr [.num "1"])
  else if s = "\"hello\"" then some (.str "hello")
  else if s = c2rawText then some (.obj c2map)
  else if s = c2missingText then some (.obj [("embeds", .arr [])])
  else if s = c2embText then some (.obj c2embMap)
  else if s = c3fbText then some (.obj c3fbMap)
  else if s = c3rawText then some (.obj c3map)
  else if s = c4rawText then some (.obj c4map)
  else if s = c5envText then some c5envJson
  else if s = c6rawText then some (.obj c6map)
  else none

def demoClient : HttpClient := fun _ =>
  .ok { statusCode := 404, readBody := .ok "missing", closeErr := none }

def demoClientFail : HttpClient := fun _ =>
  .error (.msg "dial tcp: connection refused")

def demoPayload : NotificationPayload :=
  { WebhookURL := "https://discord.example/hook", Content := "hello",
    Embeds := [], AllowedMentions := none, Username := "", AvatarURL := "" }

def demoEnvBad : Env :=
  { adapterType := "bad", webhookURL := "", errorWebhookURL := "" }

def c4alarm : CloudWatchAlarm :=
  { zeroAlarm with AlarmName := "cpu", NewStateValue := "ALARM" }

def demoMentions : AllowedMentions :=
  { Parse := ["users"], Users := ["123"], Roles := [], RepliedUser := true }

def demoPayloadMentions : NotificationPayload :=
  { demoPayload with AllowedMentions := some demoMentions }

theorem dropWhile_self_dropWhile {α : Type} (p : α → Bool) (l : List α) :
    (l.dropWhile p).dropWhile p = l.dropWhile p := by
  induction l with
  | nil => rfl
  | cons a t ih =>
    rw [List.dropWhile_cons]
    split
    · exact ih
    · rename_i h
      rw [List.dropWhile_cons, if_neg h]

theorem dropWhile_suffix_exists {α : Type} (p : α → Bool) (l : List α) :
    ∃ m, l = m ++ l.dropWhile p := by
  induction l with
  | nil => exact ⟨[], rfl⟩
  | cons a t ih =>
    by_cases h : p a
    · obtain ⟨m, hm⟩ := ih
      refine ⟨a :: m, ?_⟩
      simp only [List.dropWhile_cons, h, if_true, List.cons_append]
      exact congrArg (a :: ·) hm
    · refine ⟨[], ?_⟩
      simp [List.dropWhile_cons, h]

theorem length_dropWhile_le_self {α : Type} (p : α → Bool) (l : List α) :
    (l.dropWhile p).length ≤ l.length := by
  induction l with
  | nil => simp
  | cons a t ih =>
    rw [List.dropWhile_cons]
    split
    · exact Nat.le_trans ih (Nat.le_succ _)
    · exact Nat.le_refl _

theorem rightTrim_keeps_head {α : Type} (p : α → Bool) (x : List α)
    (hx : x.dropWhile p = x) :
    ((x.reverse.dropWhile p).reverse).dropWhile p = (x.reverse.dropWhile p).reverse := by
  obtain ⟨m, hm⟩ := dropWhile_suffix_exists p x.reverse
  cases hrev : (x.reverse.dropWhile p).reverse with
  | nil => simp
  | cons c r =>
    have hx2 : x = c :: (r ++ m.reverse) := by
      have h2 := congrArg List.reverse hm
      rw [List.reverse_reverse, List.reverse_append, hrev] at h2
      simpa using h2
    have hpc : p c = false := by
      cases hcc : p c
      · rfl
      · exfalso
        have h3 := hx
        rw [hx2, List.dropWhile_cons, if_pos hcc] at h3
        have hlen := congrArg List.length h3
        have hle := length_dropWhile_le_self p (r ++ m.reverse)
        simp only [List.length_cons] at hlen
        omega
    rw [List.dropWhile_cons, if_neg (by simp [hpc])]

theorem trimChars_idem (l : List Char) : trimChars (trimChars l) = trimChars l := by
  unfold trimChars
  rw [rightTrim_keeps_head goIsSpace (l.dropWhile goIsSpace)
    (dropWhile_self_dropWhile goIsSpace l)]
  rw [List.reverse_reverse]
  rw [dropWhile_self_dropWhile goIsSpace (l.dropWhile goIsSpace).reverse]

theorem trimS_idem (s : String) : trimS (trimS s) = trimS s :=
  congrArg String.mk (trimChars_idem s.data)

example : normaliseEvent demoParse "\"null\"" = .ok [] := rfl
example : (directTransform demoParse "" c2rawText).1.Content = "hi" := rfl
example : extractAlarmMessage demoParse "null" = .ok "" := rfl
example : (cloudwatchTransform demoParse "https://x" "\x7b\x7d").2.2 = none := rfl
example : (directTransform demoParse "" c6rawText).1.AllowedMentions = none := rfl
example : (cloudwatchTransform demoParse "https://x" c4rawText).1.Embeds.map
  Embed.Color = [0xE74C3C] := rfl
example : Send demoClient demoPayload = (.ok (404, "missing"), [mkRequest demoPayload]) := rfl

-- Helper lemmas shared by the claim theorems.
theorem extractString_trim (v : Json) : trimS (extractString v) = extractString v := by
  cases v with
  | null => rfl
  | bool b => exact trimS_idem _
  | num lit => exact trimS_idem _
  | str s => exact trimS_idem _
  | arr elems => exact trimS_idem _
  | obj fields => exact trimS_idem _

theorem indexString_trim (m : EventMap) (key : String) :
    trimS (indexString m key) = indexString m key := by
  unfold indexString
  cases lookupKey m key with
  | some v => exact extractString_trim v
  | none => rfl

theorem extractFirstNonEmpty_trim (m : EventMap) (keys : List String) :
    trimS (extractFirstNonEmpty m keys) = extractFirstNonEmpty m keys := by
  induction keys with
  | nil => rfl
  | cons k rest ih =>
    unfold extractFirstNonEmpty
    cases lookupKey m k with
    | none => exact ih
    | some v =>
      show trimS (if extractString v ≠ "" then extractString v
          else extractFirstNonEmpty m rest) =
        if extractString v ≠ "" then extractString v else extractFirstNonEmpty m rest
      by_cases h : extractString v ≠ ""
      · rw [if_pos h]
        exact extractString_trim v
      · rw [if_neg h]
        exact ih

theorem extractFirstNonEmpty_step (m : EventMap) (k : String) (rest : List String) :
    extractFirstNonEmpty m (k :: rest) =
      if indexString m k ≠ "" then indexString m k else extractFirstNonEmpty m rest := by
  cases hv : lookupKey m k with
  | none => simp [extractFirstNonEmpty, indexString, hv]
  | some v => simp only [extractFirstNonEmpty, indexString, hv]

theorem extractWebhookURL_ok (m : EventMap) (u : String)
    (h : extractWebhookURL m = .ok u) : trimS u = u ∧ u ≠ "" := by
  unfold extractWebhookURL at h
  by_cases h1 : indexString m "webhookURL" ≠ ""
  · rw [if_pos h1] at h
    injection h with h2
    subst h2
    exact ⟨indexString_trim m "webhookURL", h1⟩
  · rw [if_neg h1] at h
    by_cases h2 : indexString m "webhook_url" ≠ ""
    · rw [if_pos h2] at h
      injection h with h3
      subst h3
      exact ⟨indexString_trim m "webhook_url", h2⟩
    · rw [if_neg h2] at h
      exact absurd h (by simp)

theorem resolveWebhookURL_ok (fb : String) (m : EventMap) (u : String)
    (h : resolveWebhookURL fb m = .ok u) : trimS u = u ∧ u ≠ "" := by
  unfold resolveWebhookURL at h
  cases he : extractWebhookURL m with
  | ok w =>
    rw [he] at h
    injection h with h2
    subst h2
    exact extractWebhookURL_ok m w he
  | error e =>
    rw [he] at h
    have h2 : (if trimS fb = "" then (Except.error e : Except GoError String)
        else Except.ok (trimS fb)) = Except.ok u := h
    by_cases hf : trimS fb = ""
    · rw [if_pos hf] at h2
      exact absurd h2 (by simp)
    · rw [if_neg hf] at h2
      injection h2 with h3
      subst h3
      exact ⟨trimS_idem fb, hf⟩

theorem trimS_ne_imp_ne (raw : String) (h : trimS raw ≠ "") : raw ≠ "" :=
  fun he => h (by rw [he]; rfl)

theorem normaliseEvent_str (parse : String → Option Json) (raw s : String)
    (h1 : trimS raw ≠ "") (h2 : parse (trimS raw) = some (.str s)) :
    normaliseEvent parse raw =
      (if trimS s = "" then .ok [] else
       match parse (trimS s) with
       | none => .error (.wrapped "event string must contain valid JSON object"
           (.msg "invalid JSON"))
       | some v2 =>
         match unmarshalMap v2 with
         | some m => .ok m
         | none => .error (.wrapped "event string must contain valid JSON object"
             (.msg "cannot unmarshal into map"))) := by
  unfold normaliseEvent
  rw [if_neg (trimS_ne_imp_ne raw h1), if_neg h1, h2]
  rfl

/-- Claim C1 (amended): the event normalizer maps empty or whitespace-only
input to the empty mapping; input parsing as a JSON object to that object
verbatim; input parsing as a JSON string to the re-parse of its content,
where blank content and content parsing as JSON null both yield the empty
mapping (Go unmarshals null into a map as nil without error) and any other
non-object content yields a normalization error; and input of any other
shape (array, number, boolean) to the error "event must be an object or
JSON string". The original claim demanded an error for every non-object
string content, which JSON null violates. -/
theorem c1_normalizer_cases (parse : String → Option Json) :
    (∀ raw, trimS raw = "" → normaliseEvent parse raw = .ok [])
  ∧ (∀ raw fields, trimS raw ≠ "" → parse (trimS raw) = some (.obj fields) →
      normaliseEvent parse raw = .ok fields)
  ∧ (∀ raw s, trimS raw ≠ "" → parse (trimS raw) = some (.str s) → trimS s = "" →
      normaliseEvent parse raw = .ok [])
  ∧ (∀ raw s fields, trimS raw ≠ "" → parse (trimS raw) = some (.str s) →
      trimS s ≠ "" → parse (trimS s) = some (.obj fields) →
      normaliseEvent parse raw = .ok fields)
  ∧ (∀ raw s, trimS raw ≠ "" → parse (trimS raw) = some (.str s) →
      trimS s ≠ "" → parse (trimS s) = some .null →
      normaliseEvent parse raw = .ok [])
  ∧ (∀ raw s v2, trimS raw ≠ "" → parse (trimS raw) = some (.str s) →
      trimS s ≠ "" → parse (trimS s) = some v2 → unmarshalMap v2 = none →
      normaliseEvent parse raw =
        .error (.wrapped "event string must contain valid JSON object"
          (.msg "cannot unmarshal into map")))
  ∧ (∀ raw s, trimS raw ≠ "" → parse (trimS raw) = some (.str s) →
      trimS s ≠ "" → parse (trimS s) = none →
      normaliseEvent parse raw =
        .error (.wrapped "event string must contain valid JSON object"
          (.msg "invalid JSON")))
  ∧ (∀ raw v, trimS raw ≠ "" → parse (trimS raw) = some v →
      unmarshalMap v = none → unmarshalString v = none →
      normaliseEvent parse raw =
        .error (.msg "event must be an object or JSON string")) := by
  refine ⟨?_, ?_, ?_, ?_, ?_, ?_, ?_, ?_⟩
  · intro raw h
    by_cases hr : raw = ""
    · simp [normaliseEvent, hr]
    · simp [normaliseEvent, hr, h]
  · intro raw fields h1 h2
    unfold normaliseEvent
    rw [if_neg (trimS_ne_imp_ne raw h1), if_neg h1, h2]
    rfl
  · intro raw s h1 h2 h3
    rw [normaliseEvent_str parse raw s h1 h2, if_pos h3]
  · intro raw s fields h1 h2 h3 h4
    rw [normaliseEvent_str parse raw s h1 h2, if_neg h3]
    simp only [h4, unmarshalMap]
  · intro raw s h1 h2 h3 h4
    rw [normaliseEvent_str parse raw s h1 h2, if_neg h3]
    simp only [h4, unmarshalMap]
  · intro raw s v2 h1 h2 h3 h4 h5
    rw [normaliseEvent_str parse raw s h1 h2, if_neg h3]
    simp only [h4, h5]
  · intro raw s h1 h2 h3 h4
    rw [normaliseEvent_str parse raw s h1 h2, if_neg h3]
    simp only [h4]
  · intro raw v h1 h2 h3 h4
    unfold normaliseEvent
    rw [if_neg (trimS_ne_imp_ne raw h1), if_neg h1, h2]
    simp only [h3, h4]

/-- Claim C1, counterexample: the inbound bytes are the JSON string "null"
(quotes included). Its unwrapped content "null" is non-blank and parses as
JSON null, not as an object, yet the normalizer yields the empty mapping with
no error, where the claim requires a normalization error for string content
that fails to parse as an object. -/
theorem c1_normalizer_counterexample :
    demoParse "\"null\"" = some (Json.str "null")
  ∧ trimS "null" = "null"
  ∧ demoParse "null" = some Json.null
  ∧ normaliseEvent demoParse "\"null\"" = .ok [] :=
  ⟨rfl, rfl, rfl, rfl⟩

/-- Claim C1, witness: the amended theorem applied at a blank input, an
object input, a string-wrapped object input and an array input. -/
theorem c1_normalizer_cases_witness :
    normaliseEvent demoParse " " = .ok []
  ∧ normaliseEvent demoParse "\x7b\"a\":1\x7d" = .ok [("a", Json.num "1")]
  ∧ normaliseEvent demoParse "\"\x7b\x7d\"" = .ok []
  ∧ normaliseEvent demoParse "[1]" = .error (.msg "event must be an object or JSON string") := by
  have h := c1_normalizer_cases demoParse
  refine ⟨h.1 " " rfl, ?_, ?_, ?_⟩
  · exact h.2.1 "\x7b\"a\":1\x7d" [("a", Json.num "1")] (by decide) rfl
  · exact h.2.2.2.1 "\"\x7b\x7d\"" "\x7b\x7d" [] (by decide) rfl (by decide) rfl
  · exact h.2.2.2.2.2.2.2 "[1]" (Json.arr [Json.num "1"]) (by decide) rfl rfl rfl

-- Success-shape lemmas: what each adapter returns when it succeeds, forward
-- and inverted.
theorem directTransform_ok_shape (parse : String → Option Json) (fb raw : String)
    (m : EventMap) (w : String) (es : List Embed) (mm : Option AllowedMentions)
    (hm : normaliseEvent parse raw = .ok m)
    (hw : resolveWebhookURL fb m = .ok w)
    (hc : extractFirstNonEmpty m ["content", "message"] ≠ "")
    (he : transformEmbeds m = .ok es)
    (hmen : transformMentions m = .ok mm) :
    directTransform parse fb raw =
      ({ WebhookURL := w, Content := extractFirstNonEmpty m ["content", "message"],
         Embeds := es, AllowedMentions := mm,
         Username := indexString m "username",
         AvatarURL := indexString m "avatar_url" }, some m, none) := by
  unfold directTransform
  simp only [hm, hw, if_neg hc, he, hmen]

theorem directTransform_target_error (parse : String → Option Json) (fb raw : String)
    (m : EventMap) (e : GoError)
    (hm : normaliseEvent parse raw = .ok m)
    (hw : resolveWebhookURL fb m = .error e) :
    directTransform parse fb raw = (emptyPayload, some m, some e) := by
  unfold directTransform
  simp only [hm, hw]

theorem directTransform_content_error (parse : String → Option Json) (fb raw : String)
    (m : EventMap) (w : String)
    (hm : normaliseEvent parse raw = .ok m)
    (hw : resolveWebhookURL fb m = .ok w)
    (hc : extractFirstNonEmpty m ["content", "message"] = "") :
    directTransform parse fb raw = (emptyPayload, some m,
      some (.msg "event must contain a \u0027content\u0027 or \u0027message\u0027 field")) := by
  unfold directTransform
  simp only [hm, hw, if_pos hc]

theorem directTransform_ok_inv (parse : String → Option Json) (fb raw : String)
    (p : NotificationPayload) (em : Option EventMap)
    (h : directTransform parse fb raw = (p, em, none)) :
    ∃ m w es mm,
      normaliseEvent parse raw = .ok m ∧
      resolveWebhookURL fb m = .ok w ∧
      extractFirstNonEmpty m ["content", "message"] ≠ "" ∧
      transformEmbeds m = .ok es ∧
      transformMentions m = .ok mm ∧
      em = some m ∧
      p = { WebhookURL := w,
            Content := extractFirstNonEmpty m ["content", "message"],
            Embeds := es, AllowedMentions := mm,
            Username := indexString m "username",
            AvatarURL := indexString m "avatar_url" } := by
  unfold directTransform at h
  split at h
  · simp at h
  · rename_i m hm
    split at h
    · simp at h
    · rename_i w hw
      split at h
      · simp at h
      · rename_i hc
        split at h
        · simp at h
        · rename_i es he
          split at h
          · simp at h
          · rename_i mm hmen
            injection h with hp h2
            injection h2 with hem h3
            exact ⟨m, w, es, mm, hm, hw, hc, he, hmen, hem.symm, hp.symm⟩

theorem cloudwatchTransform_ok_shape (parse : String → Option Json)
    (url raw msgText : String) (alarm : CloudWatchAlarm)
    (hu : ¬ trimS url = "")
    (hmsg : extractAlarmMessage parse raw = .ok msgText)
    (ha : decodeAlarm parse msgText = .ok alarm) :
    cloudwatchTransform parse url raw =
      ({ WebhookURL := url, Content := buildAlarmSummary alarm,
         Embeds := [alarmEmbed alarm], AllowedMentions := some NoMentions,
         Username := "", AvatarURL := "" },
       some (alarmEventMap parse msgText), none) := by
  unfold cloudwatchTransform
  rw [if_neg hu]
  simp only [hmsg, ha]

theorem cloudwatchTransform_ok_inv (parse : String → Option Json)
    (url raw : String) (p : NotificationPayload) (em : Option EventMap)
    (h : cloudwatchTransform parse url raw = (p, em, none)) :
    ∃ msgText alarm,
      ¬ trimS url = "" ∧
      extractAlarmMessage parse raw = .ok msgText ∧
      decodeAlarm parse msgText = .ok alarm ∧
      em = some (alarmEventMap parse msgText) ∧
      p = { WebhookURL := url, Content := buildAlarmSummary alarm,
            Embeds := [alarmEmbed alarm], AllowedMentions := some NoMentions,
            Username := "", AvatarURL := "" } := by
  unfold cloudwatchTransform at h
  split at h
  · simp at h
  · rename_i hu
    split at h
    · simp at h
    · rename_i msgText hmsg
      split at h
      · simp at h
      · rename_i alarm ha
        injection h with hp h2
        injection h2 with hem h3
        exact ⟨msgText, alarm, hu, hmsg, ha, hem.symm, hp.symm⟩

/-- Claim C2 (amended): the direct adapter resolves the body by looking up
key "content" then key "message", the first non-blank value (coerced to a
trimmed string) winning, so content wins over message whenever both are
present and the content value coerces to a non-blank string (a
present-but-blank content loses to message, which falsifies the original
claim's "content always wins over message when both are present"); and once
the target has resolved, if neither key yields a non-blank string the
adapter fails with the missing-content error even when embeds are present
(when the target also fails to resolve, the target error is reported first,
which the original unconditional wording overlooks). -/
theorem c2_body_resolution (parse : String → Option Json) (fb raw : String)
    (m : EventMap) (hm : normaliseEvent parse raw = .ok m) :
    (indexString m "content" ≠ "" →
      extractFirstNonEmpty m ["content", "message"] = indexString m "content")
  ∧ (indexString m "content" = "" →
      extractFirstNonEmpty m ["content", "message"] = indexString m "message")
  ∧ (∀ p em, directTransform parse fb raw = (p, em, none) →
      p.Content = extractFirstNonEmpty m ["content", "message"])
  ∧ (∀ w, resolveWebhookURL fb m = .ok w →
      extractFirstNonEmpty m ["content", "message"] = "" →
      directTransform parse fb raw = (emptyPayload, some m,
        some (.msg "event must contain a \u0027content\u0027 or \u0027message\u0027 field"))) := by
  refine ⟨?_, ?_, ?_, ?_⟩
  · intro h
    rw [extractFirstNonEmpty_step, if_pos h]
  · intro h
    rw [extractFirstNonEmpty_step, if_neg (by simp [h])]
    rw [extractFirstNonEmpty_step]
    by_cases h2 : indexString m "message" ≠ ""
    · rw [if_pos h2]
    · rw [if_neg h2]
      push_neg at h2
      exact h2.symm
  · intro p em h
    obtain ⟨m2, w, es, mm, hm2, hw, hc, he, hmen, hem, hp⟩ :=
      directTransform_ok_inv parse fb raw p em h
    have hmm : m = m2 := by
      rw [hm] at hm2
      injection hm2
    subst hmm
    rw [hp]
  · intro w hw hc
    exact directTransform_content_error parse fb raw m w hm hw hc

/-- Claim C2, counterexample: in the event both "content" and "message" are
present, but the content value is the blank string " "; the resolved body is
"hi" (the message), not the content, falsifying "content always wins over
message when both are present". Additionally, for an event with embeds but
neither content nor message nor any target, the adapter reports the
missing-target error, not the missing-content error the claim promises
unconditionally. -/
theorem c2_body_resolution_counterexample :
    lookupKey c2map "content" = some (Json.str " ")
  ∧ lookupKey c2map "message" = some (Json.str "hi")
  ∧ normaliseEvent demoParse c2rawText = .ok c2map
  ∧ (directTransform demoParse "" c2rawText).1.Content = "hi"
  ∧ (directTransform demoParse "" c2rawText).2.2 = none
  ∧ (directTransform demoParse "" c2missingText).2.2 =
      some (.msg "event must contain a \u0027webhookURL\u0027 or \u0027webhook_url\u0027") :=
  ⟨rfl, rfl, rfl, rfl, rfl, rfl⟩

/-- Claim C2, witness: the amended theorem applied to an event carrying a
target and embeds but neither content nor message — the adapter fails with
exactly the missing-content error. -/
theorem c2_body_resolution_witness :
    directTransform demoParse "" c2embText = (emptyPayload, some c2embMap,
      some (.msg "event must contain a \u0027content\u0027 or \u0027message\u0027 field")) := by
  have h := c2_body_resolution demoParse "" c2embText c2embMap rfl
  exact h.2.2.2 "https://h" rfl rfl

/-- Claim C3: the direct adapter resolves the target as the first present,
non-blank coerced value of "webhookURL" then "webhook_url"; when neither is
present and non-blank it uses the configured fallback verbatim after
trimming; when that fallback is also blank it fails with the missing-target
error. -/
theorem c3_target_resolution (parse : String → Option Json) (fb raw : String)
    (m : EventMap) (hm : normaliseEvent parse raw = .ok m) :
    (indexString m "webhookURL" ≠ "" →
      extractWebhookURL m = .ok (indexString m "webhookURL"))
  ∧ (indexString m "webhookURL" = "" → indexString m "webhook_url" ≠ "" →
      extractWebhookURL m = .ok (indexString m "webhook_url"))
  ∧ (indexString m "webhookURL" = "" → indexString m "webhook_url" = "" →
      extractWebhookURL m =
        .error (.msg "event must contain a \u0027webhookURL\u0027 or \u0027webhook_url\u0027"))
  ∧ (∀ p em u, directTransform parse fb raw = (p, em, none) →
      extractWebhookURL m = .ok u → p.WebhookURL = u)
  ∧ (∀ p em e, directTransform parse fb raw = (p, em, none) →
      extractWebhookURL m = .error e → p.WebhookURL = trimS fb)
  ∧ (∀ e, extractWebhookURL m = .error e → trimS fb = "" →
      directTransform parse fb raw = (emptyPayload, some m, some e)) := by
  have hinv : ∀ p em, directTransform parse fb raw = (p, em, none) →
      ∃ w, resolveWebhookURL fb m = .ok w ∧ p.WebhookURL = w := by
    intro p em h
    obtain ⟨m2, w, es, mm, hm2, hw, hc, he, hmen, hem, hp⟩ :=
      directTransform_ok_inv parse fb raw p em h
    have hmm : m = m2 := by
      rw [hm] at hm2
      injection hm2
    subst hmm
    exact ⟨w, hw, by rw [hp]⟩
  refine ⟨?_, ?_, ?_, ?_, ?_, ?_⟩
  · intro h
    unfold extractWebhookURL
    rw [if_pos h]
  · intro h1 h2
    unfold extractWebhookURL
    rw [if_neg (by simp [h1]), if_pos h2]
  · intro h1 h2
    unfold extractWebhookURL
    rw [if_neg (by simp [h1]), if_neg (by simp [h2])]
  · intro p em u h hu
    obtain ⟨w, hw, hpw⟩ := hinv p em h
    unfold resolveWebhookURL at hw
    rw [hu] at hw
    injection hw with h2
    rw [hpw, h2]
  · intro p em e h he
    obtain ⟨w, hw, hpw⟩ := hinv p em h
    unfold resolveWebhookURL at hw
    rw [he] at hw
    have hw2 : (if trimS fb = "" then (Except.error e : Except GoError String)
        else Except.ok (trimS fb)) = Except.ok w := hw
    by_cases hf : trimS fb = ""
    · rw [if_pos hf] at hw2
      exact absurd hw2 (by simp)
    · rw [if_neg hf] at hw2
      injection hw2 with h2
      rw [hpw, h2]
  · intro e he hf
    refine directTransform_target_error parse fb raw m e hm ?_
    unfold resolveWebhookURL
    rw [he]
    show (if trimS fb = "" then (Except.error e : Except GoError String)
        else Except.ok (trimS fb)) = Except.error e
    rw [if_pos hf]

/-- Claim C3, witness: an event carrying only "webhook_url" resolves to that
value; an event with no target keys and the configured fallback
" https://fallback " resolves to the trimmed fallback "https://fallback";
and with a blank fallback the missing-target error is returned. -/
theorem c3_target_resolution_witness :
    extractWebhookURL c3map = .ok (indexString c3map "webhook_url")
  ∧ indexString c3map "webhook_url" = "https://y"
  ∧ (directTransform demoParse " https://fallback " c3fbText).1.WebhookURL =
      trimS " https://fallback "
  ∧ trimS " https://fallback " = "https://fallback"
  ∧ directTransform demoParse "" c3fbText = (emptyPayload, some c3fbMap,
      some (.msg "event must contain a \u0027webhookURL\u0027 or \u0027webhook_url\u0027")) := by
  have hA := c3_target_resolution demoParse "" c3rawText c3map rfl
  have hB := c3_target_resolution demoParse " https://fallback " c3fbText c3fbMap rfl
  have hC := c3_target_resolution demoParse "" c3fbText c3fbMap rfl
  refine ⟨hA.2.1 rfl (by decide), rfl, ?_, rfl, ?_⟩
  · exact hB.2.2.2.2.1 (directTransform demoParse " https://fallback " c3fbText).1
      (directTransform demoParse " https://fallback " c3fbText).2.1
      (.msg "event must contain a \u0027webhookURL\u0027 or \u0027webhook_url\u0027") rfl rfl
  · exact hC.2.2.2.2.2
      (.msg "event must contain a \u0027webhookURL\u0027 or \u0027webhook_url\u0027") rfl rfl

/-- Claim C4 (amended): for every alarm record the alarm adapter successfully
decodes, the single produced attachment has title equal to the alarm name —
which is empty when the decoded record carries no name, so the title is not
always non-empty — and its accent color is set (non-zero) if and only if the
new-state value, compared case- and space-insensitively, equals "ALARM"
(red 0xE74C3C) or "OK" (green 0x2ECC71); otherwise the color is unset. -/
theorem c4_alarm_attachment (parse : String → Option Json)
    (url raw msgText : String) (alarm : CloudWatchAlarm)
    (hu : ¬ trimS url = "")
    (hmsg : extractAlarmMessage parse raw = .ok msgText)
    (ha : decodeAlarm parse msgText = .ok alarm) :
    (cloudwatchTransform parse url raw).1.Embeds = [alarmEmbed alarm]
  ∧ (cloudwatchTransform parse url raw).2.2 = none
  ∧ (alarmEmbed alarm).Title = alarm.AlarmName
  ∧ (asciiUpperS (trimS alarm.NewStateValue) = "ALARM" →
      (alarmEmbed alarm).Color = 0xE74C3C)
  ∧ (asciiUpperS (trimS alarm.NewStateValue) = "OK" →
      (alarmEmbed alarm).Color = 0x2ECC71)
  ∧ ((alarmEmbed alarm).Color ≠ 0 ↔
      (asciiUpperS (trimS alarm.NewStateValue) = "ALARM" ∨
       asciiUpperS (trimS alarm.NewStateValue) = "OK")) := by
  have hshape := cloudwatchTransform_ok_shape parse url raw msgText alarm hu hmsg ha
  refine ⟨by rw [hshape], by rw [hshape], rfl, ?_, ?_, ?_⟩
  · intro h
    simp [alarmEmbed, h]
  · intro h
    by_cases h1 : asciiUpperS (trimS alarm.NewStateValue) = "ALARM"
    · exact absurd (h1.symm.trans h) (by decide)
    · simp [alarmEmbed, h1, h]
  · by_cases h1 : asciiUpperS (trimS alarm.NewStateValue) = "ALARM"
    · simp only [alarmEmbed, h1, if_pos]
      simp
    · by_cases h2 : asciiUpperS (trimS alarm.NewStateValue) = "OK"
      · simp only [alarmEmbed, h1, h2]
        simp [h1, h2]
      · simp only [alarmEmbed, h1, h2]
        simp [h1, h2]

/-- Claim C4, counterexample: the alarm text is the empty object; it decodes
successfully with every field zero, so the single produced attachment has the
empty string as its title — the claimed non-empty title fails. -/
theorem c4_alarm_attachment_counterexample :
    (cloudwatchTransform demoParse "https://x" "\x7b\x7d").2.2 = none
  ∧ (cloudwatchTransform demoParse "https://x" "\x7b\x7d").1.Embeds.map Embed.Title
      = [""] :=
  ⟨rfl, rfl⟩

/-- Claim C4, witness: the amended theorem applied to an alarm named "cpu"
in state "ALARM" — one embed, title "cpu", red accent color. -/
theorem c4_alarm_attachment_witness :
    (cloudwatchTransform demoParse "https://x" c4rawText).1.Embeds.map Embed.Title
      = ["cpu"]
  ∧ (cloudwatchTransform demoParse "https://x" c4rawText).1.Embeds.map Embed.Color
      = [0xE74C3C] := by
  have h := c4_alarm_attachment demoParse "https://x" c4rawText c4rawText c4alarm
    (by decide) rfl rfl
  refine ⟨?_, ?_⟩
  · rw [h.1]
    rfl
  · rw [h.1]
    have hc := h.2.2.2.1 rfl
    rw [List.map_cons, List.map_nil, hc]

/-- Claim C5 (amended): message extraction takes exactly one path, chosen by
first structural match, in the order: (a) input that unmarshals as a JSON
string — a true JSON string yields its trimmed content, and JSON null also
takes this path yielding the empty message, because Go unmarshals null into a
string variable by leaving it empty (the original claim routed null to path
(c)); (b) a fan-out envelope whose first record carries a non-empty message
yields that message; (c) otherwise the trimmed raw bytes themselves; an
empty or whitespace-only input is an error before any path is tried. -/
theorem c5_message_extraction (parse : String → Option Json) (raw : String) :
    (trimS raw = "" →
      extractAlarmMessage parse raw =
        .error (.msg "cloudwatch alarm message is empty"))
  ∧ (∀ s, trimS raw ≠ "" → parse (trimS raw) = some (.str s) →
      extractAlarmMessage parse raw = .ok (trimS s))
  ∧ (trimS raw ≠ "" → parse (trimS raw) = some .null →
      extractAlarmMessage parse raw = .ok "")
  ∧ (∀ v msgs msg, trimS raw ≠ "" → parse (trimS raw) = some v →
      unmarshalString v = none → decodeEnvelope v = some msgs →
      msgs.head? = some msg → msg ≠ "" →
      extractAlarmMessage parse raw = .ok msg)
  ∧ (∀ v, trimS raw ≠ "" → parse (trimS raw) = some v →
      unmarshalString v = none → decodeEnvelope v = none →
      extractAlarmMessage parse raw = .ok (trimS raw))
  ∧ (∀ v msgs, trimS raw ≠ "" → parse (trimS raw) = some v →
      unmarshalString v = none → decodeEnvelope v = some msgs →
      (msgs.head? = none ∨ msgs.head? = some "") →
      extractAlarmMessage parse raw = .ok (trimS raw))
  ∧ (trimS raw ≠ "" → parse (trimS raw) = none →
      extractAlarmMessage parse raw = .ok (trimS raw)) := by
  refine ⟨?_, ?_, ?_, ?_, ?_, ?_, ?_⟩
  · intro h
    unfold extractAlarmMessage
    rw [if_pos h]
  · intro s h1 h2
    unfold extractAlarmMessage
    rw [if_neg h1, h2]
    rfl
  · intro h1 h2
    unfold extractAlarmMessage
    rw [if_neg h1, h2]
    rfl
  · intro v msgs msg h1 h2 h3 h4 h5 h6
    unfold extractAlarmMessage
    rw [if_neg h1, h2]
    simp only [h3, h4, h5]
    rw [if_neg h6]
  · intro v h1 h2 h3 h4
    unfold extractAlarmMessage
    rw [if_neg h1, h2]
    simp only [h3, h4]
  · intro v msgs h1 h2 h3 h4 h5
    unfold extractAlarmMessage
    rw [if_neg h1, h2]
    rcases h5 with h5 | h5
    · simp only [h3, h4, h5]
    · simp only [h3, h4, h5, if_pos]
  · intro h1 h2
    unfold extractAlarmMessage
    rw [if_neg h1, h2]

/-- Claim C5, counterexample: the raw input "null" is not a JSON string, has
no records, and is non-blank after trimming, so the claim's first structural
match is path (c), requiring the message "null"; the code instead follows
the string-unmarshal path (Go unmarshals JSON null into a string by leaving
it empty) and yields the empty message. -/
theorem c5_message_extraction_counterexample :
    extractAlarmMessage demoParse "null" = .ok ""
  ∧ trimS "null" = "null"
  ∧ ("" : String) ≠ "null" :=
  ⟨rfl, rfl, by decide⟩

/-- Claim C5, witness: the amended theorem applied to a JSON string input
(path a), a fan-out envelope carrying "msg1" (path b), and a bare object
with no records (path c). -/
theorem c5_message_extraction_witness :
    extractAlarmMessage demoParse "\"hello\"" = .ok (trimS "hello")
  ∧ trimS "hello" = "hello"
  ∧ extractAlarmMessage demoParse c5envText = .ok "msg1"
  ∧ extractAlarmMessage demoParse "\x7b\x7d" = .ok (trimS "\x7b\x7d") := by
  have hA := c5_message_extraction demoParse "\"hello\""
  have hB := c5_message_extraction demoParse c5envText
  have hC := c5_message_extraction demoParse "\x7b\x7d"
  refine ⟨hA.2.1 "hello" (by decide) rfl, rfl, ?_, ?_⟩
  · exact hB.2.2.2.1 c5envJson ["msg1"] "msg1" (by decide) rfl rfl rfl rfl (by decide)
  · exact hC.2.2.2.2.2.1 (Json.obj []) [] (by decide) rfl rfl rfl (Or.inl rfl)

theorem lookupKey_append (l1 l2 : EventMap) (key : String) :
    lookupKey (l1 ++ l2) key =
      match lookupKey l1 key with
      | some v => some v
      | none => lookupKey l2 key := by
  induction l1 with
  | nil => rfl
  | cons kv rest ih =>
    obtain ⟨k, v⟩ := kv
    by_cases h : key = k
    · simp [lookupKey, h]
    · simp [lookupKey, h, ih]

/-- Claim C6 (amended): the direct adapter drops a present-but-all-empty
allowed_mentions object: the decoded policy is discarded as absent, so no
allowed_mentions key appears in the serialized wire body (falsifying the
original "present-but-all-empty stays present"); a decoded policy that is
not all-empty is kept and serialized under the allowed_mentions key; and an
absent policy never contributes an allowed_mentions key to the output. -/
theorem c6_mentions_roundtrip :
    (∀ v a, decodeAllowedMentionsJson v = .ok a → a.IsZero = true →
      parseAllowedMentions v = .ok none)
  ∧ (∀ v a, decodeAllowedMentionsJson v = .ok a → a.IsZero = false →
      parseAllowedMentions v = .ok (some a))
  ∧ (∀ p : NotificationPayload, p.AllowedMentions = none →
      lookupKey (buildRequestBody p) "allowed_mentions" = none)
  ∧ (∀ (p : NotificationPayload) (a : AllowedMentions), p.AllowedMentions = some a →
      lookupKey (buildRequestBody p) "allowed_mentions" =
        some (encodeAllowedMentions a)) := by
  refine ⟨?_, ?_, ?_, ?_⟩
  · intro v a hd hz
    cases v with
    | null => rfl
    | bool b => simp [parseAllowedMentions, hd, hz]
    | num lit => simp [parseAllowedMentions, hd, hz]
    | str s => simp [parseAllowedMentions, hd, hz]
    | arr elems => simp [parseAllowedMentions, hd, hz]
    | obj fields => simp [parseAllowedMentions, hd, hz]
  · intro v a hd hz
    cases v with
    | null =>
      injection hd with h2
      rw [← h2] at hz
      exact absurd hz (by decide)
    | bool b => simp [parseAllowedMentions, hd, hz]
    | num lit => simp [parseAllowedMentions, hd, hz]
    | str s => simp [parseAllowedMentions, hd, hz]
    | arr elems => simp [parseAllowedMentions, hd, hz]
    | obj fields => simp [parseAllowedMentions, hd, hz]
  · intro p hpm
    unfold buildRequestBody
    rw [hpm]
    split_ifs <;> simp [lookupKey, lookupKey_append]
  · intro p a hpm
    unfold buildRequestBody
    rw [hpm]
    split_ifs <;> simp [lookupKey, lookupKey_append]

/-- Claim C6, counterexample: the event carries
allowed_mentions = an object whose every collection is empty; the transform
succeeds, the decoded policy is discarded (AllowedMentions is nil), and the
serialized wire body contains no allowed_mentions key, where the claim
requires explicit emptiness to stay present. -/
theorem c6_mentions_roundtrip_counterexample :
    (directTransform demoParse "" c6rawText).2.2 = none
  ∧ lookupKey c6map "allowed_mentions" = some (Json.obj [("parse", Json.arr [])])
  ∧ (directTransform demoParse "" c6rawText).1.AllowedMentions = none
  ∧ lookupKey (buildRequestBody (directTransform demoParse "" c6rawText).1)
      "allowed_mentions" = none :=
  ⟨rfl, rfl, rfl, rfl⟩

/-- Claim C6, witness: the amended theorem applied to the all-empty policy
object (dropped) and to a payload carrying a non-empty policy (key present
in the wire body). -/
theorem c6_mentions_roundtrip_witness :
    parseAllowedMentions (Json.obj [("parse", Json.arr [])]) = .ok none
  ∧ lookupKey (buildRequestBody demoPayloadMentions) "allowed_mentions" =
      some (encodeAllowedMentions demoMentions) := by
  have h := c6_mentions_roundtrip
  exact ⟨h.1 (Json.obj [("parse", Json.arr [])]) NoMentions rfl rfl,
    h.2.2.2 demoPayloadMentions demoMentions rfl⟩

/-- Claim C7: for every notification whose target is blank after trimming, or
whose body is blank while its embeds sequence is empty, Send returns the
validation error produced by Validate and issues no HTTP request (empty call
trace); the invariant lives in Send, immediately before serialization — the
NotificationPayload structure itself is freely constructible, so nothing is
checked at construction time. -/
theorem c7_validation_guard (p : NotificationPayload) (client : HttpClient)
    (h : trimS p.WebhookURL = "" ∨ (trimS p.Content = "" ∧ p.Embeds.length = 0)) :
    ∃ e, p.Validate = some e ∧ Send client p = (.error e, []) := by
  have hv : ∃ e, p.Validate = some e := by
    unfold NotificationPayload.Validate
    by_cases h1 : trimS p.WebhookURL = ""
    · exact ⟨_, by rw [if_pos h1]⟩
    · rcases h with h | h
      · exact absurd h h1
      · exact ⟨_, by rw [if_neg h1, if_pos h]⟩
  obtain ⟨e, he⟩ := hv
  refine ⟨e, he, ?_⟩
  unfold Send
  simp only [he]

/-- Claim C7, witness: the theorem applied to the zero payload (blank target)
with a client that would answer 404 — no request is issued and the exact
validation error is returned. -/
theorem c7_validation_guard_witness :
    Send demoClient emptyPayload =
      (.error (.msg "discord webhook URL must be provided"), []) := by
  obtain ⟨e, he, hs⟩ := c7_validation_guard emptyPayload demoClient (Or.inl rfl)
  have h2 : some e = some (GoError.msg "discord webhook URL must be provided") := by
    rw [← he]
    rfl
  injection h2 with h3
  rw [← h3]
  exact hs

/-- Claim C8: when the HTTP POST completes, a non-2xx status is not treated
as an error — Send returns the numeric status code and the raw response body
for every status value, and the handler passes them through verbatim to the
invoking runtime as the Response; only a transport-level failure of the POST
itself yields the typed WebhookError wrapping the underlying cause. -/
theorem c8_response_passthrough :
    (∀ (client : HttpClient) (p : NotificationPayload) (resp : HttpResponse)
      (b : String),
      p.Validate = none → client (mkRequest p) = .ok resp →
      resp.readBody = .ok b → resp.closeErr = none →
      Send client p = (.ok (resp.statusCode, b), [mkRequest p]))
  ∧ (∀ (client : HttpClient) (p : NotificationPayload) (cause : GoError),
      p.Validate = none → client (mkRequest p) = .error cause →
      Send client p = (.error (.webhook cause), [mkRequest p]))
  ∧ (∀ (parse : String → Option Json) (env : Env) (client : HttpClient)
      (raw : String) (p : NotificationPayload) (em : Option EventMap)
      (s : Nat) (b : String) (tr : List HttpRequest),
      buildNotificationPayload parse env raw = (p, em, none) →
      Send client p = (.ok (s, b), tr) →
      (HandleRequest parse env client raw).1 = .ok { statusCode := s, body := b }) := by
  refine ⟨?_, ?_, ?_⟩
  · intro client p resp b hv hc hr hcl
    unfold Send
    simp only [hv, hc, hr, hcl]
  · intro client p cause hv hc
    unfold Send
    simp only [hv, hc]
  · intro parse env client raw p em s b tr hb hs
    unfold HandleRequest
    simp only [hb, hs]

/-- Claim C8, witness: the theorem applied to a client answering 404 (the
status and body are returned as a success) and to a client failing at the
transport level (typed WebhookError wrapping the cause). -/
theorem c8_response_passthrough_witness :
    Send demoClient demoPayload = (.ok (404, "missing"), [mkRequest demoPayload])
  ∧ Send demoClientFail demoPayload =
      (.error (.webhook (.msg "dial tcp: connection refused")),
       [mkRequest demoPayload]) := by
  have h := c8_response_passthrough
  exact ⟨h.1 demoClient demoPayload
      { statusCode := 404, readBody := .ok "missing", closeErr := none } "missing"
      rfl rfl rfl rfl,
    h.2.1 demoClientFail demoPayload (.msg "dial tcp: connection refused") rfl rfl⟩

/-- Claim C9: the failure notifier is a no-op when the cause is nil or the
configured error-reporting target is blank; otherwise it issues at most one
best-effort diagnostic request whose outcome it discards (it returns nothing
but the call trace); and the top-level handler returns the original error of
the failing stage unchanged, never an error from the notifier. -/
theorem c9_failure_isolation :
    (∀ parse env client raw em,
      notifyProcessingError parse env client raw em none = [])
  ∧ (∀ parse env client raw em e, trimS env.errorWebhookURL = "" →
      notifyProcessingError parse env client raw em (some e) = [])
  ∧ (∀ parse env client raw em pe,
      (notifyProcessingError parse env client raw em pe).length ≤ 1)
  ∧ (∀ parse env client raw p em e,
      buildNotificationPayload parse env raw = (p, em, some e) →
      (HandleRequest parse env client raw).1 = .error e)
  ∧ (∀ parse env client raw p em e tr,
      buildNotificationPayload parse env raw = (p, em, none) →
      Send client p = (.error e, tr) →
      (HandleRequest parse env client raw).1 = .error e) := by
  have hsend : ∀ (client : HttpClient) (p : NotificationPayload),
      (Send client p).2.length ≤ 1 := by
    intro client p
    unfold Send
    split
    · simp
    · split
      · simp
      · split
        · split <;> simp
        · split <;> simp
  refine ⟨?_, ?_, ?_, ?_, ?_⟩
  · intro parse env client raw em
    rfl
  · intro parse env client raw em e h
    simp [notifyProcessingError, h]
  · intro parse env client raw em pe
    cases pe with
    | none => simp [notifyProcessingError]
    | some e =>
      unfold notifyProcessingError
      by_cases h : trimS env.errorWebhookURL = ""
      · simp [h]
      · simp only [h, if_neg, ite_false]
        exact hsend client _
  · intro parse env client raw p em e hb
    unfold HandleRequest
    simp only [hb]
  · intro parse env client raw p em e tr hb hs
    unfold HandleRequest
    simp only [hb, hs]

/-- Claim C9, witness: the theorem applied with a nil cause, with a blank
error-reporting target, and to an invocation whose adapter selection fails —
the handler returns exactly the unsupported-adapter error. -/
theorem c9_failure_isolation_witness :
    notifyProcessingError demoParse demoEnvBad demoClient "x" none none = []
  ∧ notifyProcessingError demoParse demoEnvBad demoClient "x" none
      (some (.msg "boom")) = []
  ∧ (HandleRequest demoParse demoEnvBad demoClient "x").1 =
      .error (.msg "unsupported adapter type: bad") := by
  have h := c9_failure_isolation
  exact ⟨h.1 demoParse demoEnvBad demoClient "x" none,
    h.2.1 demoParse demoEnvBad demoClient "x" none (.msg "boom") rfl,
    h.2.2.2.1 demoParse demoEnvBad demoClient "x" emptyPayload none
      (.msg "unsupported adapter type: bad") rfl⟩

/-- Claim C10: whenever either adapter's Transform returns a nil error, the
produced payload satisfies the dispatch invariant — Validate accepts it (the
webhook URL is non-blank after trimming, and the content is non-blank or the
embeds sequence is non-empty) — so the dispatcher's validation-error branch
is unreachable for adapter-produced payloads. -/
theorem c10_adapter_invariant :
    (∀ (parse : String → Option Json) (fb raw : String) (p : NotificationPayload)
      (em : Option EventMap),
      directTransform parse fb raw = (p, em, none) → p.Validate = none)
  ∧ (∀ (parse : String → Option Json) (url raw : String) (p : NotificationPayload)
      (em : Option EventMap),
      cloudwatchTransform parse url raw = (p, em, none) → p.Validate = none) := by
  constructor
  · intro parse fb raw p em h
    obtain ⟨m, w, es, mm, hm, hw, hc, he, hmen, hem, hp⟩ :=
      directTransform_ok_inv parse fb raw p em h
    obtain ⟨hwt, hwn⟩ := resolveWebhookURL_ok fb m w hw
    subst hp
    unfold NotificationPayload.Validate
    rw [if_neg (show ¬ trimS w = "" from fun hh => hwn (hwt.symm.trans hh))]
    rw [if_neg (show ¬ (trimS (extractFirstNonEmpty m ["content", "message"]) = ""
        ∧ es.length = 0) from
      fun hh => hc ((extractFirstNonEmpty_trim m _).symm.trans hh.1))]
  · intro parse url raw p em h
    obtain ⟨msgText, alarm, hu, hmsg, ha, hem, hp⟩ :=
      cloudwatchTransform_ok_inv parse url raw p em h
    subst hp
    unfold NotificationPayload.Validate
    rw [if_neg hu]
    rw [if_neg (show ¬ (trimS (buildAlarmSummary alarm) = ""
        ∧ ([alarmEmbed alarm] : List Embed).length = 0) from
      fun hh => by simpa using hh.2)]

/-- Claim C10, witness: the theorem applied to a successful direct transform
and a successful alarm transform — both produced payloads validate. -/
theorem c10_adapter_invariant_witness :
    (directTransform demoParse "" c6rawText).1.Validate = none
  ∧ (cloudwatchTransform demoParse "https://x" c4rawText).1.Validate = none := by
  have h := c10_adapter_invariant
  exact ⟨h.1 demoParse "" c6rawText _ _ rfl,
    h.2 demoParse "https://x" c4rawText _ _ rfl⟩
